import Mathlib

/-!
Shallow embedding of the Research-Trailhead pipeline
(src/app.py, src/agents/searcher.py, src/agents/profiler.py, src/models.py).

External collaborators (HTTP literature search, the generative text-analysis
service, JSON parsing of its replies, PDF text extraction, the Reader agent)
are modelled as oracle parameters; everything else is translated directly
from the Python source.  Python floats are modelled as exact rationals.
-/

/-- Python `str.lower()` (per-character lowering). -/
def pyLower (s : String) : String := String.mk (s.data.map Char.toLower)

/-- Whether `pre` is a leading segment of `l` (helper for substring search). -/
def leadsWith : List Char → List Char → Bool
| [], _ => true
| _ :: _, [] => false
| a :: as, b :: bs => a = b && leadsWith as bs

/-- Whether `sub` occurs contiguously inside `hay`: Python `sub in hay` for strings. -/
def occursIn (sub : List Char) : List Char → Bool
| [] => decide (sub = [])
| c :: rest => leadsWith sub (c :: rest) || occursIn sub rest

/-- Python `sub in hay` on strings. -/
def strIn (sub hay : String) : Bool := occursIn sub.data hay.data

/-- Helper for `pySplit`: accumulates the current word (reversed) while scanning. -/
def pySplitAux : List Char → List Char → List String
| [], cur => if cur = [] then [] else [String.mk cur.reverse]
| c :: cs, cur =>
  if c.isWhitespace then
    if cur = [] then pySplitAux cs []
    else String.mk cur.reverse :: pySplitAux cs []
  else pySplitAux cs (c :: cur)

/-- Python `str.split()` with no arguments: split on whitespace runs, dropping empties. -/
def pySplit (s : String) : List String := pySplitAux s.data []

/-- Python `str.find(c)`: index of the first occurrence of `c`, or `-1`. -/
def pyFind : List Char → Char → Int
| [], _ => -1
| x :: xs, c =>
  if x = c then 0
  else
    let r := pyFind xs c
    if r = -1 then -1 else r + 1

/-- Python `str.rfind(c)`: index of the last occurrence of `c`, or `-1`. -/
def pyRfind (s : List Char) (c : Char) : Int :=
  let r := pyFind s.reverse c
  if r = -1 then -1 else (s.length : Int) - 1 - r

/-- Python `s[a:b]` for `0 ≤ a ≤ b` (the only way it is used below). -/
def pySlice (s : String) (a b : Int) : String :=
  String.mk ((s.data.drop a.toNat).take (b.toNat - a.toNat))

/-- JSON-span extraction shared by the searcher's three assessment calls:
locate the first `\x7b` and the last `\x7d`; slice when found, else keep the
whole text (src/agents/searcher.py lines 192-195 and analogues). -/
def extractJson (content : String) : String :=
  let js := pyFind content.data '\x7b'
  let je := pyRfind content.data '\x7d' + 1
  if js ≠ -1 ∧ je > js then pySlice content js je else content

/-! ## Searcher data model (src/agents/searcher.py) -/

/-- Candidate research idea as produced by the Reader agent (a Python dict with
keys title, description, rationale, topic_tags). -/
structure Idea where
  title : String := ""
  description : String := ""
  rationale : String := ""
  topic_tags : List String := []
deriving DecidableEq, Repr, Inhabited

/-- Raw author object inside a Semantic Scholar search response. -/
structure RawAuthor where
  name : Option String := none
deriving DecidableEq, Repr, Inhabited

/-- Raw paper object inside a Semantic Scholar search response; every field may
be absent (`paper.get(...)`). -/
structure RawPaper where
  title : Option String := none
  abstract : Option String := none
  year : Option Int := none
  citationCount : Option Int := none
  authors : List RawAuthor := []
  url : Option String := none
deriving DecidableEq, Repr, Inhabited

/-- Formatted paper built by `_search_papers` (src/agents/searcher.py lines 125-132). -/
structure FormattedPaper where
  title : String := ""
  abstract : String := ""
  year : Option Int := none
  citations : Int := 0
  authors : List String := []
  url : String := ""
deriving DecidableEq, Repr, Inhabited

/-- Filter-and-format step of `_search_papers` (lines 122-132): keep papers with
a truthy abstract, take the first 3 author names with default empty strings. -/
def formatPapers (ps : List RawPaper) : List FormattedPaper :=
  (ps.filter fun p => p.abstract.getD "" ≠ "").map fun p =>
    { title := p.title.getD ""
      abstract := p.abstract.getD ""
      year := p.year
      citations := p.citationCount.getD 0
      authors := (p.authors.take 3).map fun a => a.name.getD ""
      url := p.url.getD "" }

/-- Outcome of one HTTP attempt against the literature-search service:
either an exception (network error, timeout, bad JSON body) or a status code
with the parsed `data` list. -/
inductive HttpAttempt where
| exc : HttpAttempt
| resp (status : Nat) (data : List RawPaper) : HttpAttempt
deriving Repr

/-- Search query of `_search_papers` (line 95): title plus first 100 chars of
the description. -/
def searchQuery (idea : Idea) : String :=
  idea.title ++ " " ++ idea.description.take 100

/-- Retry loop of `_search_papers` (lines 97-151).  `attempt` is the current
0-based attempt index, `fuel` the number of attempts left.  Returns the result
list together with the list of back-off sleeps performed (in seconds).
A 429 sleeps `(2 ^ attempt) * 2` and retries; any other 4xx/5xx raises
`HTTPError` which the handler turns into `[]`; any other exception also
yields `[]`; running out of attempts yields `[]`. -/
def search_papers_go (http : Nat → HttpAttempt) : Nat → Nat → List FormattedPaper × List Nat
| _, 0 => ([], [])
| attempt, fuel + 1 =>
  match http attempt with
  | .exc => ([], [])
  | .resp status data =>
    if status = 429 then
      let rest := search_papers_go http (attempt + 1) fuel
      (rest.1, (2 ^ attempt * 2) :: rest.2)
    else if 400 ≤ status then ([], [])
    else (formatPapers data, [])

/-- Model of `_search_papers` (src/agents/searcher.py lines 87-151) with the HTTP layer
as an oracle mapping (query, attempt index) to an outcome; `max_retries = 3`
as in the source default. -/
def search_papers (http : String → Nat → HttpAttempt) (idea : Idea)
    (max_retries : Nat) : List FormattedPaper × List Nat :=
  search_papers_go (http (searchQuery idea)) 0 max_retries

/-- Python string interpolation of an `Option Int` value (prints `None` when absent). -/
def showPyOptInt : Option Int → String
| none => "None"
| some n => toString n

/-- Novelty assessment object (`_assess_novelty` result; untyped JSON in the
source, typed here after the JSON-parsing oracle). -/
structure NoveltyAssessment where
  explored : String := ""
  maturity : String := ""
  gap : String := ""
  novelty_score : Rat := 0
deriving DecidableEq, Repr, Inhabited

/-- Doability assessment object (`_assess_doability` result). -/
structure DoabilityAssessment where
  data_availability : String := ""
  methodology : String := ""
  timeline : String := ""
  expertise_level : String := ""
  doability_score : Rat := 0
deriving DecidableEq, Repr, Inhabited

/-- Fallback returned by `_assess_novelty` on any failure
(src/agents/searcher.py lines 200-207). -/
def defaultNoveltyAssessment : NoveltyAssessment :=
  { explored := "Unknown"
    maturity := "Unknown"
    gap := "Unable to assess"
    novelty_score := 3 }

/-- Fallback returned by `_assess_doability` on any failure
(src/agents/searcher.py lines 250-258). -/
def defaultDoabilityAssessment : DoabilityAssessment :=
  { data_availability := "Unknown"
    methodology := "Unknown"
    timeline := "Unknown"
    expertise_level := "Unknown"
    doability_score := 3 }

/-- Prompt of `_assess_novelty` (src/agents/searcher.py lines 160-186),
including the summary of the first 10 papers. -/
def noveltyPrompt (idea : Idea) (papers : List FormattedPaper) : String :=
  let papers_summary := String.intercalate "\n\n" ((papers.take 10).map fun p =>
    "Title: " ++ p.title ++ "\nYear: " ++ showPyOptInt p.year ++
    "\nAbstract: " ++ p.abstract.take 300 ++ "...")
  "Assess the novelty of this research idea based on existing literature.\n\nResearch Idea:\nTitle: "
  ++ idea.title ++ "\nDescription: " ++ idea.description
  ++ "\n\nRelated Papers Found:\n" ++ papers_summary
  ++ "\n\nAssess:\n1. Has this specific idea been extensively explored? (Yes/Partially/No)\n2. Research maturity level: Unexplored / Emerging / Active / Saturated\n3. What specific gap or unexplored angle does this idea address?\n4. Novelty score: Rate 1-5 (1=extensively explored, 5=highly novel)\n\nReturn ONLY valid JSON:\n\x7b\x7b\n  \"explored\": \"Yes/Partially/No\",\n  \"maturity\": \"Unexplored/Emerging/Active/Saturated\",\n  \"gap\": \"description of gap\",\n  \"novelty_score\": 1-5\n\x7d\x7d"

/-- Prompt of `_assess_doability` (src/agents/searcher.py lines 216-236).
The `papers` argument is in scope in the source but the prompt text only
interpolates the idea title and description. -/
def doabilityPrompt (idea : Idea) (papers : List FormattedPaper) : String :=
  "Assess the feasibility and doability of this research idea.\n\nResearch Idea:\nTitle: "
  ++ idea.title ++ "\nDescription: " ++ idea.description
  ++ "\n\nBased on the idea and typical research resources, assess:\n1. Data availability: Are datasets available or need to be collected? (Available/Partially/Need to Collect)\n2. Methodology complexity: Can standard methods be used? (Standard/Moderate/Novel Methods Needed)\n3. Estimated timeline: (3 months / 6 months / 1 year+)\n4. Required expertise: (Undergraduate / Masters / PhD level)\n5. Doability score: Rate 1-5 (1=very difficult, 5=highly doable)\n\nReturn ONLY valid JSON:\n\x7b\x7b\n  \"data_availability\": \"Available/Partially/Need to Collect\",\n  \"methodology\": \"Standard/Moderate/Novel Methods Needed\",\n  \"timeline\": \"3 months/6 months/1 year+\",\n  \"expertise_level\": \"Undergraduate/Masters/PhD level\",\n  \"doability_score\": 1-5\n\x7d\x7d"

/-- Model of `_assess_novelty` (src/agents/searcher.py lines 153-207).  `gen` models
`self.model.generate_content` + `.text` (`none` = exception), `parseN` models
`json.loads` into the expected shape (`none` = parse failure).  Any failure
inside the `try` yields the neutral fallback. -/
def assess_novelty (gen : String → Option String)
    (parseN : String → Option NoveltyAssessment)
    (idea : Idea) (papers : List FormattedPaper) : NoveltyAssessment :=
  match gen (noveltyPrompt idea papers) with
  | none => defaultNoveltyAssessment
  | some content =>
    match parseN (extractJson content) with
    | none => defaultNoveltyAssessment
    | some a => a

/-- Model of `_assess_doability` (src/agents/searcher.py lines 209-258). -/
def assess_doability (gen : String → Option String)
    (parseD : String → Option DoabilityAssessment)
    (idea : Idea) (papers : List FormattedPaper) : DoabilityAssessment :=
  match gen (doabilityPrompt idea papers) with
  | none => defaultDoabilityAssessment
  | some content =>
    match parseD (extractJson content) with
    | none => defaultDoabilityAssessment
    | some a => a

/-- Model of `_calculate_topic_match` (src/agents/searcher.py lines 260-283). -/
def calculate_topic_match (idea : Idea) (user_topics : List String) : Rat :=
  if user_topics = [] then 3
  else
    let idea_tags := idea.topic_tags.map pyLower
    let user_topics_lower := user_topics.map pyLower
    let matchCount := (idea_tags.filter fun tag =>
      user_topics_lower.any fun topic => strIn topic tag || strIn tag topic).length
    if idea_tags = [] then 5/2
    else
      let match_ratio : Rat := (matchCount : Rat) / (max user_topics.length 1 : Nat)
      min (match_ratio * 5) 5

/-! ## Literature synthesis and the full ranking pipeline -/

/-- Key-paper entry of a literature synthesis. -/
structure KeyPaper where
  paper_index : Int := 0
  category : String := ""
  summary : String := ""
deriving DecidableEq, Repr, Inhabited

/-- Literature synthesis object (`_synthesize_literature` result). -/
structure Synthesis where
  overview : String := ""
  key_papers : List KeyPaper := []
  whats_missing : String := ""
  suggested_approach : String := ""
deriving DecidableEq, Repr, Inhabited

/-- Fallback returned by `_synthesize_literature` on any failure
(src/agents/searcher.py lines 373-380). -/
def defaultSynthesis : Synthesis :=
  { overview := "Unable to synthesize"
    key_papers := []
    whats_missing := "Unable to assess"
    suggested_approach := "Unable to provide" }

/-- Prompt of `_synthesize_literature` (src/agents/searcher.py lines 332-359). -/
def synthesisPrompt (idea : Idea) (papers : List FormattedPaper) : String :=
  let papers_text := String.intercalate "\n\n" ((papers.take 8).enum.map fun ip =>
    "[" ++ toString (ip.1 + 1) ++ "] " ++ ip.2.title ++ " (" ++ showPyOptInt ip.2.year ++ ")\n"
    ++ ip.2.abstract.take 200 ++ "...")
  "Synthesize the literature for this research idea.\n\nResearch Idea: " ++ idea.title
  ++ "\n\nRelated Papers:\n" ++ papers_text
  ++ "\n\nCreate a synthesis that includes:\n1. A brief overview of what has been done (2-3 sentences)\n2. Key papers categorized as: Foundational Work, Recent Advances, or Identifies Gaps\n3. What\x27s missing or unexplored\n4. Suggested approach (methodology, potential datasets, concrete next steps)\n\nReturn ONLY valid JSON:\n\x7b\x7b\n  \"overview\": \"What has been done...\",\n  \"key_papers\": [\n    \x7b\x7b\"paper_index\": 1, \"category\": \"Foundational/Recent/Gap\", \"summary\": \"2 sentence summary\"\x7d\x7d,\n    ...\n  ],\n  \"whats_missing\": \"The specific gap...\",\n  \"suggested_approach\": \"Concrete next steps...\"\x7d\x7d"

/-- Model of `_synthesize_literature` (src/agents/searcher.py lines 325-380). -/
def synthesize_literature (gen : String → Option String)
    (parseS : String → Option Synthesis)
    (idea : Idea) (papers : List FormattedPaper) : Synthesis :=
  match gen (synthesisPrompt idea papers) with
  | none => defaultSynthesis
  | some content =>
    match parseS (extractJson content) with
    | none => defaultSynthesis
    | some s => s

/-- Scored idea entry appended to `scored_ideas` in `research_ideas`
(src/agents/searcher.py lines 56-63). -/
structure ScoredIdea where
  idea : Idea := {}
  papers : List FormattedPaper := []
  novelty_assessment : NoveltyAssessment := {}
  doability_assessment : DoabilityAssessment := {}
  topic_match_score : Rat := 0
  composite_score : Rat := 0
deriving DecidableEq, Repr, Inhabited

/-- Scoring of one idea inside the `research_ideas` loop
(src/agents/searcher.py lines 34-63): literature search, novelty and
doability assessment, topic match, composite score, keep top 8 papers. -/
def scoreIdea (http : String → Nat → HttpAttempt) (gen : String → Option String)
    (parseN : String → Option NoveltyAssessment)
    (parseD : String → Option DoabilityAssessment)
    (user_topics : List String) (idea : Idea) : ScoredIdea :=
  let papers := (search_papers http idea 3).1
  let novelty_assessment := assess_novelty gen parseN idea papers
  let doability_assessment := assess_doability gen parseD idea papers
  let topic_match_score := calculate_topic_match idea user_topics
  let composite_score : Rat :=
    3/10 * novelty_assessment.novelty_score +
    4/10 * doability_assessment.doability_score +
    3/10 * topic_match_score
  { idea := idea
    papers := papers.take 8
    novelty_assessment := novelty_assessment
    doability_assessment := doability_assessment
    topic_match_score := topic_match_score
    composite_score := composite_score }

/-- Stable descending insertion used to model the stable Python
`list.sort(key=composite_score, reverse=True)` (line 70): an element is
inserted before the first strictly smaller score, hence after all earlier
elements with an equal score. -/
def insertDesc (x : ScoredIdea) : List ScoredIdea → List ScoredIdea
| [] => [x]
| y :: ys => if y.composite_score < x.composite_score then x :: y :: ys else y :: insertDesc x ys

/-- Stable sort by descending composite score (src/agents/searcher.py line 70). -/
def sortScored : List ScoredIdea → List ScoredIdea
| [] => []
| x :: xs => insertDesc x (sortScored xs)

/-- Distinct common words between two lowercased, whitespace-split titles:
Python `len(set(a.split()) & set(b.split()))` on the lowered titles
(src/agents/searcher.py lines 309-311). -/
def commonWordCount (a b : String) : Nat :=
  ((pySplit (pyLower a)).dedup.filter fun w => (pySplit (pyLower b)).contains w).length

/-- Inner diversity check of `_select_diverse_top_3` (lines 303-314): an item is
diverse iff its title shares at most 3 distinct words with every selected title. -/
def isDiverse (item : ScoredIdea) (selected : List ScoredIdea) : Bool :=
  selected.all fun s => commonWordCount item.idea.title s.idea.title ≤ 3

/-- Greedy loop of `_select_diverse_top_3` (lines 296-317): stop at 3 accepted,
append each candidate that passes the diversity check. -/
def diverseLoop (acc : List ScoredIdea) : List ScoredIdea → List ScoredIdea
| [] => acc
| x :: xs =>
  if acc.length ≥ 3 then acc
  else if isDiverse x acc then diverseLoop (acc ++ [x]) xs
  else diverseLoop acc xs

/-- Model of `_select_diverse_top_3` (src/agents/searcher.py lines 285-323). -/
def select_diverse_top_3 (scored_ideas : List ScoredIdea) : List ScoredIdea :=
  if scored_ideas.length ≤ 3 then scored_ideas
  else
    match scored_ideas with
    | [] => []
    | top :: rest =>
      let top_3 := diverseLoop [top] rest
      if top_3.length < 3 then scored_ideas.take 3 else top_3

/-- Final ranked entry: a scored idea extended with its literature synthesis
(src/agents/searcher.py lines 76-80). -/
structure RankedIdea where
  scored : ScoredIdea := {}
  literature_synthesis : Synthesis := {}
deriving DecidableEq, Repr, Inhabited

/-- Return value of `research_ideas` (src/agents/searcher.py lines 82-85). -/
structure SearcherOutput where
  top_ideas : List RankedIdea := []
  total_ideas_analyzed : Nat := 0
deriving DecidableEq, Repr, Inhabited

/-- Model of `SearcherAgent.research_ideas` (src/agents/searcher.py lines 20-85):
score every idea, sort by descending composite score, select a diverse top 3,
and synthesize literature for each selected idea. -/
def research_ideas (http : String → Nat → HttpAttempt) (gen : String → Option String)
    (parseN : String → Option NoveltyAssessment)
    (parseD : String → Option DoabilityAssessment)
    (parseS : String → Option Synthesis)
    (ideas : List Idea) (user_topics : List String) : SearcherOutput :=
  let scored_ideas := ideas.map (scoreIdea http gen parseN parseD user_topics)
  let sorted := sortScored scored_ideas
  let top_ideas := select_diverse_top_3 sorted
  { top_ideas := top_ideas.map fun item =>
      { scored := item
        literature_synthesis := synthesize_literature gen parseS item.idea item.papers }
    total_ideas_analyzed := ideas.length }

/-! ## Profiler (src/agents/profiler.py) -/

/-- Structured researcher profile (src/agents/profiler.py, src/models.py). -/
structure Profile where
  expertise_level : String := ""
  research_areas : List String := []
  specific_topics : List String := []
  technical_skills : List String := []
  research_style : String := ""
  resource_access : String := ""
  publication_count : Int := 0
  h_index : Int := 0
  novelty_preference : Rat := 0
  doability_preference : Rat := 0
deriving DecidableEq, Repr, Inhabited

/-- Default profile returned by `analyze_description` on any failure
(src/agents/profiler.py lines 91-102). -/
def defaultProfile (experience_level : Option String) : Profile :=
  { expertise_level := experience_level.getD "PhD Student"
    research_areas := ["Machine Learning"]
    specific_topics := []
    technical_skills := []
    research_style := "Mixed"
    resource_access := "Moderate"
    publication_count := 0
    h_index := 0
    novelty_preference := 1/2
    doability_preference := 7/10 }

/-- Prompt of `ProfilerAgent.analyze_description` (src/agents/profiler.py lines 28-66). -/
def profilePrompt (description : String) (experience_level : Option String) : String :=
  "You are a research profile analyzer. Analyze this researcher\x27s description and create a structured profile.\n\nRESEARCHER\x27S DESCRIPTION:\n"
  ++ description ++ "\n\n"
  ++ (match experience_level with
      | some lvl => "STATED EXPERIENCE LEVEL: " ++ lvl
      | none => "")
  ++ "\n\nExtract and infer the following information, returning ONLY valid JSON:\n\n\x7b\x7b\n  \"expertise_level\": \"Undergraduate Student\" | \"PhD Student\" | \"Postdoc\" | \"Assistant Professor\" | \"Associate/Full Professor\" | \"Industry Researcher\",\n  \"research_areas\": [\"area1\", \"area2\", ...],  // 3-5 broad areas (e.g., \"Natural Language Processing\", \"Computer Vision\")\n  \"specific_topics\": [\"topic1\", \"topic2\", ...],  // 5-10 specific topics (e.g., \"Transformers\", \"Few-shot Learning\")\n  \"technical_skills\": [\"skill1\", \"skill2\", ...],  // Technical skills/tools mentioned (e.g., \"PyTorch\", \"TensorFlow\")\n  \"research_style\": \"Empirical\" | \"Theoretical\" | \"Applied\" | \"Mixed\",  // Infer from description\n  \"resource_access\": \"Limited\" | \"Moderate\" | \"Extensive\",  // Infer from position/institution\n  \"publication_count\": 0,  // Estimate if mentioned, otherwise 0\n  \"h_index\": 0,  // Estimate if mentioned, otherwise 0\n  \"novelty_preference\": 0.5,  // 0-1, infer willingness to pursue novel/risky ideas\n  \"doability_preference\": 0.7  // 0-1, infer preference for practical/doable projects\n\x7d\x7d\n\nGUIDELINES:\n- For research_areas: Extract broad fields like \"Machine Learning\", \"Bioinformatics\", \"Robotics\"\n- For specific_topics: Extract specific methods, models, or subfields mentioned\n- For technical_skills: Include frameworks, languages, tools explicitly mentioned\n- For research_style:\n  * \"Empirical\": Focus on experiments, datasets, benchmarks\n  * \"Theoretical\": Focus on proofs, algorithms, mathematical foundations\n  * \"Applied\": Focus on real-world applications, systems\n  * \"Mixed\": Combination of above\n- For resource_access:\n  * \"Limited\": Undergrad/early PhD, no mention of compute resources\n  * \"Moderate\": PhD student/postdoc at known institution\n  * \"Extensive\": Professor, industry researcher, mentions large compute\n- For novelty_preference: Higher if they mention \"novel\", \"innovative\", \"breakthrough\"; lower if they mention \"practical\", \"incremental\"\n- For doability_preference: Higher if they mention \"feasible\", \"practical\", \"implementable\"; lower if they\x27re open to ambitious projects\n\nReturn ONLY the JSON object, no other text."

/-- Model of `ProfilerAgent.analyze_description` (src/agents/profiler.py lines 17-102).
`gen` models the text-analysis call (`none` = service exception), `parseP`
models `json.loads` of the extracted span (`none` = parse failure).  The
source raises `ValueError` when no JSON span is found; every exception inside
the `try` is caught and downgraded to the default profile. -/
def analyze_description (gen : String → Option String)
    (parseP : String → Option Profile)
    (description : String) (experience_level : Option String) : Profile :=
  match gen (profilePrompt description experience_level) with
  | none => defaultProfile experience_level
  | some content =>
    let json_start := pyFind content.data '\x7b'
    let json_end := pyRfind content.data '\x7d' + 1
    if json_start ≥ 0 ∧ json_end > json_start then
      match parseP (pySlice content json_start json_end) with
      | none => defaultProfile experience_level
      | some profile =>
        match experience_level with
        | some lvl => { profile with expertise_level := lvl }
        | none => profile
    else defaultProfile experience_level

/-! ## Flask orchestration layer (src/app.py, src/models.py)

Each phase handler is modelled as a function from a request, the job's current
`Analysis` row, and oracles for the external collaborators, to an HTTP status
code plus the ordered list of committed states of that row (`db.commit()`
snapshots).  The handlers presuppose that the analysis row was found (the 404
branch concerns a nonexistent job).  The side tables (ResearchIdea, Reference)
and timestamps are not modelled. -/

/-- Output of the Reader agent as stored in `analysis.reader_output`
(src/app.py line 343).  The `ideas` key may be absent from the stored dict
(checked at src/app.py line 402). -/
structure ReaderOutput where
  summary : String := ""
  concepts : List String := []
  ideas : Option (List Idea) := none
deriving DecidableEq, Repr, Inhabited

/-- Analysis row (src/models.py lines 91-105), restricted to the fields the
phase handlers read or write. -/
structure AnalysisRec where
  status : String := "pending"
  progress : Nat := 0
  selected_topics : List String := []
  user_profile_snapshot : Option Profile := none
  reader_output : Option ReaderOutput := none
  searcher_output : Option SearcherOutput := none
  error_message : Option String := none
deriving DecidableEq, Repr, Inhabited

/-- Request body of `/api/analyze/read` (src/app.py lines 292-297). -/
structure ReadReq where
  job_id_present : Bool := true
  topics : List String := []
deriving DecidableEq, Repr, Inhabited

/-- Result of the PDF text extraction collaborator:
an exception, or the extracted text (possibly empty). -/
inductive ExtractResult where
| exc (msg : String) : ExtractResult
| ok (text : String) : ExtractResult
deriving DecidableEq, Repr, Inhabited

/-- Oracles consumed by the read phase: whether the paper row exists, the
user-profile snapshot found for it, the PDF extraction outcome, and the
Reader agent outcome (`Except` = raised exception). -/
structure ReadOracle where
  paper_found : Bool := true
  profile_snapshot : Option Profile := none
  extract : ExtractResult := .ok ""
  reader : Except String ReaderOutput := .ok {}
deriving Repr, Inhabited

/-- Result of one phase invocation: HTTP status code, the committed states of
the analysis row in order, and whether each external collaborator was called. -/
structure PhaseResult where
  code : Nat := 200
  trace : List AnalysisRec := []
  extract_called : Bool := false
  reader_called : Bool := false
deriving Repr, Inhabited

/-- Model of `analyze_paper_read` (src/app.py lines 281-370).  Validation: `job_id`
required, job found (presupposed), non-empty `topics`.  Then: commit
parsing/20 with the topics and profile snapshot, extract the PDF text, commit
reading/40, run the Reader agent, commit ideas_ready/60 with its output.  A
missing paper row or a collaborator exception rolls back to the last commit
and commits an `error` status with the message. -/
def analyze_paper_read (o : ReadOracle) (req : ReadReq) (a : AnalysisRec) : PhaseResult :=
  if req.job_id_present = false then { code := 400 }
  else if req.topics = [] then { code := 400 }
  else
    let a1 : AnalysisRec :=
      { a with selected_topics := req.topics, status := "parsing", progress := 20,
               user_profile_snapshot :=
                 match o.profile_snapshot with
                 | some p => some p
                 | none => a.user_profile_snapshot }
    if o.paper_found = false then
      { code := 500, trace := [{ a with status := "error", error_message := some "Paper not found" }] }
    else
      match o.extract with
      | .exc msg =>
        { code := 500, extract_called := true,
          trace := [a1, { a1 with status := "error", error_message := some msg }] }
      | .ok text =>
        if text = "" then
          { code := 500, extract_called := true,
            trace := [a1,
              { a1 with status := "error"
                        error_message := some "Failed to extract text from PDF" }] }
        else
          let a2 : AnalysisRec := { a1 with status := "reading", progress := 40 }
          match o.reader with
          | .error msg =>
            { code := 500, extract_called := true, reader_called := true,
              trace := [a1, a2, { a2 with status := "error", error_message := some msg }] }
          | .ok r =>
            { code := 200, extract_called := true, reader_called := true,
              trace := [a1, a2,
                { a2 with reader_output := some r
                          status := "ideas_ready"
                          progress := 60 }] }

/-- Request body of `/api/analyze/search` (src/app.py lines 384-386). -/
structure SearchReq where
  job_id_present : Bool := true
  selected_ideas : List Int := []
deriving DecidableEq, Repr, Inhabited

/-- Index-validation loop of `analyze_paper_search` (src/app.py lines 407-412):
collect `all_ideas[idx]` for each selected index, failing on the first index
outside `[0, len(all_ideas))`. -/
def selectIdeas (all_ideas : List Idea) : List Int → Option (List Idea)
| [] => some []
| idx :: rest =>
  if 0 ≤ idx ∧ idx < (all_ideas.length : Int) then
    (selectIdeas all_ideas rest).map fun sel => all_ideas.getD idx.toNat {} :: sel
  else none

/-- Number of stored candidate ideas of a job (0 when the reader output or its
`ideas` key is absent). -/
def numCandidates (a : AnalysisRec) : Nat :=
  ((a.reader_output.bind fun r => r.ideas).getD []).length

/-- Model of `analyze_paper_search` (src/app.py lines 373-508).  Validation in source
order: `job_id` required, exactly 3 non-empty selected indices, job found
(presupposed), status `ideas_ready`, reader output with an `ideas` key
present, every index in range.  Then: commit searching/70, run the Searcher
agent (`run` oracle; `Except.error` = raised exception), and either commit
complete/100 with its output or roll back and commit an `error` status. -/
def analyze_paper_search (run : List Idea → List String → Except String SearcherOutput)
    (req : SearchReq) (a : AnalysisRec) : PhaseResult :=
  if req.job_id_present = false then { code := 400 }
  else if req.selected_ideas = [] ∨ req.selected_ideas.length ≠ 3 then { code := 400 }
  else if a.status ≠ "ideas_ready" then { code := 400 }
  else
    match a.reader_output with
    | none => { code := 400 }
    | some r =>
      match r.ideas with
      | none => { code := 400 }
      | some all_ideas =>
        match selectIdeas all_ideas req.selected_ideas with
        | none => { code := 400 }
        | some sel =>
          let a1 : AnalysisRec := { a with status := "searching", progress := 70 }
          match run sel a.selected_topics with
          | .error msg =>
            { code := 500,
              trace := [a1, { a1 with status := "error", error_message := some msg }] }
          | .ok results =>
            { code := 200,
              trace := [a1,
                { a1 with searcher_output := some results
                          status := "complete"
                          progress := 100 }] }

/-! ## Job state machine (spec section 4.4) -/

/-- Position of a status in the forward chain
pending, uploaded, parsing, reading, ideas_ready, searching, complete;
`none` for `error` and unknown statuses. -/
def statusRank (s : String) : Option Nat :=
  if s = "pending" then some 0
  else if s = "uploaded" then some 1
  else if s = "parsing" then some 2
  else if s = "reading" then some 3
  else if s = "ideas_ready" then some 4
  else if s = "searching" then some 5
  else if s = "complete" then some 6
  else none

/-- Progress percentage attached to each chain position. -/
def progressOf : Nat → Nat
| 0 => 0
| 1 => 10
| 2 => 20
| 3 => 40
| 4 => 60
| 5 => 70
| 6 => 100
| _ => 0

/-- A non-error job state is well-formed when its progress matches its status. -/
def wellFormed (a : AnalysisRec) : Bool :=
  match statusRank a.status with
  | some i => decide (a.progress = progressOf i)
  | none => false

/-- Invariant carried across phase invocations: the job is either in the error
state or well-formed. -/
def jobInv (a : AnalysisRec) : Bool :=
  decide (a.status = "error") || wellFormed a

/-- One committed transition is monotone: progress does not decrease, and the
status either enters the error state (from a non-error, non-terminal state) or
moves forward along the chain. -/
def jobStepOK (s t : AnalysisRec) : Bool :=
  decide (s.progress ≤ t.progress) &&
  (if t.status = "error" then decide (s.status ≠ "error") && decide (s.status ≠ "complete")
   else
     match statusRank s.status, statusRank t.status with
     | some i, some j => decide (i ≤ j)
     | _, _ => false)

/-- One externally triggered phase invocation with its request and oracles. -/
inductive PhaseCall where
| readCall (o : ReadOracle) (req : ReadReq) : PhaseCall
| searchCall (run : List Idea → List String → Except String SearcherOutput)
    (req : SearchReq) : PhaseCall

/-- Dispatch a phase invocation on the current analysis row. -/
def runCall : PhaseCall → AnalysisRec → PhaseResult
| .readCall o req, a => analyze_paper_read o req a
| .searchCall run req, a => analyze_paper_search run req a

/-- State of the analysis row after a list of committed states (the row is
unchanged when nothing was committed). -/
def endState (a : AnalysisRec) (trace : List AnalysisRec) : AnalysisRec :=
  trace.getLastD a

/-- Committed states of the analysis row over a sequence of phase invocations,
in order. -/
def runSeq (a : AnalysisRec) : List PhaseCall → List AnalysisRec
| [] => []
| c :: cs =>
  let tr := (runCall c a).trace
  tr ++ runSeq (endState a tr) cs

/-- Whether every read-phase invocation in the sequence happens while the job
status is `uploaded` (the state in which the upload endpoint leaves a fresh
job, before any reader output exists). -/
def readsFromUploaded (a : AnalysisRec) : List PhaseCall → Bool
| [] => true
| c :: cs =>
  (match c with
   | .readCall _ _ => decide (a.status = "uploaded")
   | .searchCall _ _ => true) &&
  readsFromUploaded (endState a (runCall c a).trace) cs

/-- Executable pairwise check of `jobStepOK` along a committed history. -/
def chainOK : List AnalysisRec → Bool
| [] => true
| [_] => true
| a :: b :: l => jobStepOK a b && chainOK (b :: l)

/-! ## Spec-side definitions

Definitions in this section follow the words of the specification / claims and
are compared against the source-derived definitions above. -/

/-- Modelled from the spec / claim C2 wording: the number of idea tags that
case-insensitively contain or are contained in at least one user topic. -/
def matchCountSpec (idea : Idea) (user_topics : List String) : Nat :=
  (idea.topic_tags.filter fun tag =>
    user_topics.any fun topic =>
      strIn (pyLower topic) (pyLower tag) || strIn (pyLower tag) (pyLower topic)).length

/-- Set of whole words of a lower-cased title (claim C3 wording). -/
def wordSet (title : String) : Finset String :=
  (pySplit (pyLower title)).toFinset

/-- Modelled from the spec / claim C3 wording: the greedy pass accepts each
candidate in score order only if its title shares at most 3 whole words with
every already-accepted title, stopping at 3 accepted. -/
def greedySpec (acc : List ScoredIdea) : List ScoredIdea → List ScoredIdea
| [] => acc
| x :: xs =>
  if 3 ≤ acc.length then acc
  else if acc.all fun s => (wordSet x.idea.title ∩ wordSet s.idea.title).card ≤ 3 then
    greedySpec (acc ++ [x]) xs
  else greedySpec acc xs

/-- Modelled from the spec / claim C3 wording: return the whole list when it
has at most 3 elements; otherwise run the greedy diverse pass from the
top-scored candidate, falling back to the unfiltered top 3 by score when the
greedy pass accepts fewer than 3. -/
def selectDiverseTop3Spec (scored : List ScoredIdea) : List ScoredIdea :=
  if scored.length ≤ 3 then scored
  else
    match scored with
    | [] => []
    | top :: rest =>
      let accepted := greedySpec [top] rest
      if accepted.length < 3 then scored.take 3 else accepted

/-! ## Concrete instances used by witnesses and counterexamples -/

/-- Concrete idea used by the C1 witness. -/
def w1Idea : Idea := { title := "t", description := "d" }

/-- Literature-search oracle that always raises. -/
def w1Http : String → Nat → HttpAttempt := fun _ _ => .exc

/-- Text-analysis oracle that always raises. -/
def w1Gen : String → Option String := fun _ => none

/-- Novelty JSON parser that always fails. -/
def w1ParseN : String → Option NoveltyAssessment := fun _ => none

/-- Doability JSON parser that always fails. -/
def w1ParseD : String → Option DoabilityAssessment := fun _ => none

/-- Synthesis JSON parser that always fails. -/
def w1ParseS : String → Option Synthesis := fun _ => none

/-- Ranked idea produced by `research_ideas` on `w1Idea` with all-failing oracles. -/
def w1Ranked : RankedIdea :=
  { scored :=
      { idea := w1Idea
        papers := []
        novelty_assessment := defaultNoveltyAssessment
        doability_assessment := defaultDoabilityAssessment
        topic_match_score := 3
        composite_score := 3/10 * 3 + 4/10 * 3 + 3/10 * 3 }
    literature_synthesis := defaultSynthesis }

/-- Concrete scored ideas used by the C3 witness: five candidates, sorted by
descending score, where the second shares 5 title words with the first. -/
def w3List : List ScoredIdea :=
  [ { idea := { title := "deep learning for natural language processing" }, composite_score := 5 },
    { idea := { title := "deep learning for natural language generation" }, composite_score := 4 },
    { idea := { title := "graph neural networks for molecules" }, composite_score := 3 },
    { idea := { title := "reinforcement learning in robotics" }, composite_score := 2 },
    { idea := { title := "bayesian optimization of experiments" }, composite_score := 1 } ]

/-- Concrete state used by the C4 witness: a completed job. -/
def w4State : AnalysisRec := { status := "complete", progress := 100 }

/-- Concrete request used by the C4 witness. -/
def w4Req : SearchReq := { selected_ideas := [0, 1, 2] }

/-- Searcher oracle that always succeeds. -/
def w4Run : List Idea → List String → Except String SearcherOutput := fun _ _ => .ok {}

/-- Read-phase oracle where every collaborator succeeds. -/
def w5Oracle : ReadOracle :=
  { extract := .ok "text"
    reader := .ok { summary := "s", ideas := some [{}, {}, {}] } }

/-- Successful read-phase invocation. -/
def w5Read : PhaseCall := .readCall w5Oracle { topics := ["t"] }

/-- Successful search-phase invocation. -/
def w5Search : PhaseCall := .searchCall (fun _ _ => .ok {}) { selected_ideas := [0, 1, 2] }

/-- Freshly uploaded job. -/
def w5Start : AnalysisRec := { status := "uploaded", progress := 10 }

/-- Two consecutive read invocations: the C5 counterexample sequence. -/
def cx5Calls : List PhaseCall := [w5Read, w5Read]

/-- Concrete `ideas_ready` job with existing reader output, used by the C9
counterexample. -/
def w9State : AnalysisRec :=
  { status := "ideas_ready", progress := 60, reader_output := some { ideas := some [{}] } }

/-- Read-phase oracle for the C9 counterexample (all collaborators succeed). -/
def w9Oracle : ReadOracle :=
  { extract := .ok "text", reader := .ok { summary := "s", ideas := some [{}] } }

/-- Concrete search response data used by the C6 witness; the second paper has
no abstract and is filtered out. -/
def w6Data : List RawPaper :=
  [ { title := some "p", abstract := some "abs", year := some 2021 },
    { title := some "q" } ]

/-- Literature-search oracle used by the C6 witness: 429 twice, then success. -/
def w6Http : String → Nat → HttpAttempt := fun _ n =>
  if n = 0 then .resp 429 []
  else if n = 1 then .resp 429 []
  else .resp 200 w6Data

/-! ## Helper lemmas -/

/-- Filtering after mapping counts the same elements as filtering the composed
predicate. -/
theorem length_filter_map_comp (f : α → β) (p : β → Bool) (l : List α) :
    ((l.map f).filter p).length = (l.filter fun x => p (f x)).length := by
  induction l with
  | nil => rfl
  | cons a t ih =>
    simp only [List.map_cons, List.filter_cons]
    cases h : p (f a) <;> simp [h, ih]

/-- Python `len(set(a words) & set(b words))` computed on deduplicated lists
equals the cardinality of the intersection of the word sets. -/
theorem commonWordCount_eq_card_inter (a b : String) :
    commonWordCount a b = (wordSet a ∩ wordSet b).card := by
  classical
  unfold commonWordCount wordSet
  have h1 : ((pySplit (pyLower a)).dedup.filter
      fun w => (pySplit (pyLower b)).contains w).length
      = ((pySplit (pyLower a)).dedup.filter
      fun w => (pySplit (pyLower b)).contains w).toFinset.card := by
    rw [List.card_toFinset, List.Nodup.dedup ((pySplit (pyLower a)).nodup_dedup.filter _)]
  have h2 : (pySplit (pyLower a)).dedup.toFinset = (pySplit (pyLower a)).toFinset := by
    ext w
    simp [List.mem_toFinset, List.mem_dedup]
  rw [h1, List.toFinset_filter, h2]
  congr 1
  ext w
  simp [List.elem_iff, Finset.mem_filter, Finset.mem_inter, List.mem_toFinset, List.contains]

/-- The source greedy loop and the spec-worded greedy pass agree. -/
theorem diverseLoop_eq_greedySpec (l acc : List ScoredIdea) :
    diverseLoop acc l = greedySpec acc l := by
  induction l generalizing acc with
  | nil => rfl
  | cons x xs ih =>
    have hcond : isDiverse x acc =
        acc.all fun s => decide ((wordSet x.idea.title ∩ wordSet s.idea.title).card ≤ 3) := by
      unfold isDiverse
      congr 1
      funext s
      rw [commonWordCount_eq_card_inter]
    simp only [diverseLoop, greedySpec, hcond, ih]

/-- Membership in the result of a descending insertion. -/
theorem mem_insertDesc {x a : ScoredIdea} {l : List ScoredIdea} :
    x ∈ insertDesc a l ↔ x = a ∨ x ∈ l := by
  induction l with
  | nil => simp [insertDesc]
  | cons y ys ih =>
    by_cases hlt : y.composite_score < a.composite_score
    · simp only [insertDesc, if_pos hlt, List.mem_cons]
    · simp only [insertDesc, if_neg hlt, List.mem_cons, ih]
      tauto

/-- The stable sort keeps the same elements. -/
theorem mem_sortScored {x : ScoredIdea} {l : List ScoredIdea}
    (h : x ∈ sortScored l) : x ∈ l := by
  induction l with
  | nil => simpa [sortScored] using h
  | cons y ys ih =>
    unfold sortScored at h
    rcases mem_insertDesc.mp h with h | h
    · simp [h]
    · simp [ih h]

/-- Every element returned by the greedy loop comes from the accumulator or
the candidate list. -/
theorem mem_diverseLoop {x : ScoredIdea} {acc l : List ScoredIdea}
    (h : x ∈ diverseLoop acc l) : x ∈ acc ∨ x ∈ l := by
  induction l generalizing acc with
  | nil => simpa [diverseLoop] using h
  | cons y ys ih =>
    unfold diverseLoop at h
    by_cases h3 : acc.length ≥ 3
    · rw [if_pos h3] at h
      exact Or.inl h
    · rw [if_neg h3] at h
      by_cases hd : isDiverse y acc = true
      · rw [if_pos hd] at h
        rcases ih h with h | h
        · rcases List.mem_append.mp h with h | h
          · exact Or.inl h
          · simp at h
            simp [h]
        · simp [h]
      · rw [if_neg hd] at h
        rcases ih h with h | h
        · exact Or.inl h
        · simp [h]

/-- Results of `_select_diverse_top_3` only contain elements of its input. -/
theorem mem_select_diverse_top_3 {x : ScoredIdea} {l : List ScoredIdea}
    (h : x ∈ select_diverse_top_3 l) : x ∈ l := by
  unfold select_diverse_top_3 at h
  by_cases hlen : l.length ≤ 3
  · rw [if_pos hlen] at h
    exact h
  · rw [if_neg hlen] at h
    cases l with
    | nil => simpa using h
    | cons top rest =>
      simp only at h
      by_cases h3 : (diverseLoop [top] rest).length < 3
      · rw [if_pos h3] at h
        exact List.mem_of_mem_take h
      · rw [if_neg h3] at h
        rcases mem_diverseLoop h with h | h
        · simp at h
          simp [h]
        · simp [h]

/-- The executable pairwise check agrees with `List.Chain'`. -/
theorem chainOK_iff (l : List AnalysisRec) :
    chainOK l = true ↔ List.Chain' (fun s t => jobStepOK s t = true) l := by
  induction l with
  | nil => simp [chainOK]
  | cons a t ih =>
    cases t with
    | nil => simp [chainOK]
    | cons b r =>
      rw [chainOK, Bool.and_eq_true, List.chain'_cons, ih]

/-- Index validation fails when some selected index is out of range. -/
theorem selectIdeas_eq_none {all_ideas : List Idea} {sel : List Int}
    (h : ∃ i ∈ sel, ¬(0 ≤ i ∧ i < (all_ideas.length : Int))) :
    selectIdeas all_ideas sel = none := by
  induction sel with
  | nil => simp at h
  | cons j rest ih =>
    rcases h with ⟨i, hi, hbad⟩
    rcases List.mem_cons.mp hi with rfl | hmem
    · unfold selectIdeas
      rw [if_neg hbad]
    · unfold selectIdeas
      by_cases hj : 0 ≤ j ∧ j < (all_ideas.length : Int)
      · rw [if_pos hj, ih ⟨i, hmem, hbad⟩]
        rfl
      · rw [if_neg hj]

/-- Last committed state of a nonempty history. -/
theorem cons_getLast? (a : α) (l : List α) : (a :: l).getLast? = some (l.getLastD a) := by
  induction l generalizing a with
  | nil => rfl
  | cons b t ih => rw [List.getLast?_cons_cons, ih, List.getLastD_cons]

/-! ## Claim theorems -/

/-- Claim C10: the doability assessment is independent of the retrieved
literature — `_assess_doability` builds its prompt from the idea's title and
description only, so two invocations with the same idea and any two paper
lists issue the identical prompt and, given the same service reply, return
the same assessment. -/
theorem doability_independent_of_papers
    (gen : String → Option String) (parseD : String → Option DoabilityAssessment)
    (idea : Idea) (papers1 papers2 : List FormattedPaper) :
    doabilityPrompt idea papers1 = doabilityPrompt idea papers2 ∧
    assess_doability gen parseD idea papers1 = assess_doability gen parseD idea papers2 :=
  ⟨rfl, rfl⟩

/-- Claim C7: if the text-analysis call or the JSON parse inside
`_assess_novelty` or `_assess_doability` fails, the function returns the
documented neutral fallback (novelty: Unknown/Unknown/Unable to assess/3;
doability: score 3) instead of propagating the exception. -/
theorem assessment_failure_fallback
    (gen : String → Option String)
    (parseN : String → Option NoveltyAssessment)
    (parseD : String → Option DoabilityAssessment)
    (idea : Idea) (papers : List FormattedPaper) :
    (gen (noveltyPrompt idea papers) = none →
      assess_novelty gen parseN idea papers =
        { explored := "Unknown", maturity := "Unknown",
          gap := "Unable to assess", novelty_score := 3 }) ∧
    (∀ content, gen (noveltyPrompt idea papers) = some content →
      parseN (extractJson content) = none →
      assess_novelty gen parseN idea papers =
        { explored := "Unknown", maturity := "Unknown",
          gap := "Unable to assess", novelty_score := 3 }) ∧
    (gen (doabilityPrompt idea papers) = none →
      assess_doability gen parseD idea papers = defaultDoabilityAssessment) ∧
    (∀ content, gen (doabilityPrompt idea papers) = some content →
      parseD (extractJson content) = none →
      assess_doability gen parseD idea papers = defaultDoabilityAssessment) ∧
    defaultDoabilityAssessment.doability_score = 3 := by
  refine ⟨?_, ?_, ?_, ?_, rfl⟩
  · intro h
    simp [assess_novelty, h, defaultNoveltyAssessment]
  · intro content hg hp
    simp [assess_novelty, hg, hp, defaultNoveltyAssessment]
  · intro h
    simp [assess_doability, h]
  · intro content hg hp
    simp [assess_doability, hg, hp]

/-- Witness for C7 at all-failing oracles on the empty idea. -/
theorem assessment_failure_fallback_witness :
    (w1Gen (noveltyPrompt {} []) = none ∧
      assess_novelty w1Gen w1ParseN {} [] =
        { explored := "Unknown", maturity := "Unknown",
          gap := "Unable to assess", novelty_score := 3 }) ∧
    (w1Gen (doabilityPrompt {} []) = none ∧
      assess_doability w1Gen w1ParseD {} [] = defaultDoabilityAssessment) :=
  ⟨⟨rfl, (assessment_failure_fallback w1Gen w1ParseN w1ParseD {} []).1 rfl⟩,
   ⟨rfl, (assessment_failure_fallback w1Gen w1ParseN w1ParseD {} []).2.2.1 rfl⟩⟩

/-- Claim C8: on a failing, malformed, or JSON-free text-analysis response,
`ProfilerAgent.analyze_description` returns the exact documented default
profile (expertise from the stated level or PhD Student, research areas
[Machine Learning], empty topic and skill lists, Mixed style, Moderate
resources, zero counts, novelty preference 0.5, doability preference 0.7)
and never raises past the component boundary. -/
theorem profiler_default_on_failure
    (gen : String → Option String) (parseP : String → Option Profile)
    (description : String) (experience_level : Option String) :
    (gen (profilePrompt description experience_level) = none →
      analyze_description gen parseP description experience_level =
        defaultProfile experience_level) ∧
    (∀ content, gen (profilePrompt description experience_level) = some content →
      ¬(pyFind content.data '\x7b' ≥ 0 ∧
        pyRfind content.data '\x7d' + 1 > pyFind content.data '\x7b') →
      analyze_description gen parseP description experience_level =
        defaultProfile experience_level) ∧
    (∀ content, gen (profilePrompt description experience_level) = some content →
      parseP (pySlice content (pyFind content.data '\x7b') (pyRfind content.data '\x7d' + 1)) = none →
      analyze_description gen parseP description experience_level =
        defaultProfile experience_level) ∧
    defaultProfile experience_level =
      { expertise_level := experience_level.getD "PhD Student"
        research_areas := ["Machine Learning"]
        specific_topics := []
        technical_skills := []
        research_style := "Mixed"
        resource_access := "Moderate"
        publication_count := 0
        h_index := 0
        novelty_preference := 1/2
        doability_preference := 7/10 } := by
  refine ⟨?_, ?_, ?_, rfl⟩
  · intro h
    simp [analyze_description, h]
  · intro content hg hguard
    simp only [analyze_description, hg]
    rw [if_neg hguard]
  · intro content hg hp
    simp only [analyze_description, hg]
    by_cases hguard : pyFind content.data '\x7b' ≥ 0 ∧
        pyRfind content.data '\x7d' + 1 > pyFind content.data '\x7b'
    · rw [if_pos hguard, hp]
    · rw [if_neg hguard]

/-- Witness for C8 on a JSON-free response with no stated level. -/
theorem profiler_default_on_failure_witness :
    (fun _ => some "no json here" : String → Option String)
        (profilePrompt "desc" none) = some "no json here" ∧
    ¬(pyFind "no json here".data '\x7b' ≥ 0 ∧
      pyRfind "no json here".data '\x7d' + 1 > pyFind "no json here".data '\x7b') ∧
    analyze_description (fun _ => some "no json here") (fun _ => some {}) "desc" none =
      defaultProfile none :=
  ⟨rfl, by decide,
   (profiler_default_on_failure (fun _ => some "no json here") (fun _ => some {})
     "desc" none).2.1 "no json here" rfl (by decide)⟩

/-- Claim C6: `_search_papers` retries a 429 rate-limit response with
exponential backoff 2s, 4s, 8s across at most 3 attempts and returns an empty
list (not an exception) when they are exhausted; with 429 twice and success
on the third attempt it sleeps 2s then 4s and returns the abstract-filtered
result list. -/
theorem search_papers_retry (http : String → Nat → HttpAttempt) (idea : Idea)
    (d0 d1 d2 data : List RawPaper) :
    (http (searchQuery idea) 0 = .resp 429 d0 →
     http (searchQuery idea) 1 = .resp 429 d1 →
     http (searchQuery idea) 2 = .resp 429 d2 →
     search_papers http idea 3 = ([], [2, 4, 8])) ∧
    (http (searchQuery idea) 0 = .resp 429 d0 →
     http (searchQuery idea) 1 = .resp 429 d1 →
     http (searchQuery idea) 2 = .resp 200 data →
     search_papers http idea 3 = (formatPapers data, [2, 4])) := by
  constructor
  · intro h0 h1 h2
    simp [search_papers, search_papers_go, h0, h1, h2]
  · intro h0 h1 h2
    simp [search_papers, search_papers_go, h0, h1, h2]

/-- Witness for C6: 429, 429, then a successful response. -/
theorem search_papers_retry_witness :
    w6Http (searchQuery w1Idea) 0 = .resp 429 [] ∧
    w6Http (searchQuery w1Idea) 1 = .resp 429 [] ∧
    w6Http (searchQuery w1Idea) 2 = .resp 200 w6Data ∧
    search_papers w6Http w1Idea 3 = (formatPapers w6Data, [2, 4]) :=
  ⟨rfl, rfl, rfl,
   (search_papers_retry w6Http w1Idea [] [] [] w6Data).2 rfl rfl rfl⟩

/-- General form of the non-trivial topic-match branch: for non-empty topics
and a tagged idea, the source computation equals the spec formula
`min((m / max(|user_topics|, 1)) * 5, 5)`. -/
theorem topic_match_formula (idea : Idea) (user_topics : List String)
    (h1 : user_topics ≠ []) (h2 : idea.topic_tags ≠ []) :
    calculate_topic_match idea user_topics =
      min ((matchCountSpec idea user_topics : Rat) /
        (max user_topics.length 1 : Nat) * 5) 5 := by
  have hcount : ((idea.topic_tags.map pyLower).filter fun tag =>
      (user_topics.map pyLower).any fun topic =>
        strIn topic tag || strIn tag topic).length = matchCountSpec idea user_topics := by
    rw [length_filter_map_comp]
    unfold matchCountSpec
    congr 1
    apply List.filter_congr
    intro tag _
    rw [List.any_map]
    rfl
  rw [calculate_topic_match, if_neg h1]
  simp only [hcount]
  rw [if_neg (by simpa using h2)]

/-- Claim C2: `_calculate_topic_match` returns 3 for empty user topics, 2.5
for an untagged idea against non-empty topics, and otherwise
`min((m / max(|user_topics|, 1)) * 5, 5)` where `m` counts the idea tags that
case-insensitively contain or are contained in at least one user topic; in
particular tags [transformers] against topics [Transformers] score exactly 5. -/
theorem topic_match_correct (idea : Idea) (user_topics : List String) :
    (user_topics = [] → calculate_topic_match idea user_topics = 3) ∧
    (user_topics ≠ [] → idea.topic_tags = [] →
      calculate_topic_match idea user_topics = 5/2) ∧
    (user_topics ≠ [] → idea.topic_tags ≠ [] →
      calculate_topic_match idea user_topics =
        min ((matchCountSpec idea user_topics : Rat) /
          (max user_topics.length 1 : Nat) * 5) 5) ∧
    calculate_topic_match { topic_tags := ["transformers"] } ["Transformers"] = 5 := by
  refine ⟨?_, ?_, topic_match_formula idea user_topics, ?_⟩
  · intro h
    simp [calculate_topic_match, h]
  · intro h1 h2
    simp [calculate_topic_match, h1, h2]
  · rw [topic_match_formula _ _ (by decide) (by decide),
      show matchCountSpec { topic_tags := ["transformers"] } ["Transformers"] = 1 by decide]
    norm_num

/-- Witness for C2: the non-empty-tags branch at a concrete idea and topic list. -/
theorem topic_match_correct_witness :
    (["NLP", "vision"] : List String) ≠ [] ∧
    ({ topic_tags := ["deep learning", "nlp"] } : Idea).topic_tags ≠ [] ∧
    calculate_topic_match { topic_tags := ["deep learning", "nlp"] } ["NLP", "vision"] =
      min ((matchCountSpec { topic_tags := ["deep learning", "nlp"] } ["NLP", "vision"] : Rat) /
        (max (["NLP", "vision"] : List String).length 1 : Nat) * 5) 5 :=
  ⟨by decide, by decide,
   (topic_match_correct { topic_tags := ["deep learning", "nlp"] } ["NLP", "vision"]).2.2.1
     (by decide) (by decide)⟩

/-- Claim C1: every idea scored by `research_ideas` carries a composite score
equal to 0.3 times the novelty score plus 0.4 times the doability score plus
0.3 times the topic-match score (exactly, over the rationals), for novelty and
doability in [1,5] and topic match in [0,5]. -/
theorem composite_score_formula
    (http : String → Nat → HttpAttempt) (gen : String → Option String)
    (parseN : String → Option NoveltyAssessment)
    (parseD : String → Option DoabilityAssessment)
    (parseS : String → Option Synthesis)
    (ideas : List Idea) (user_topics : List String) (r : RankedIdea)
    (hr : r ∈ (research_ideas http gen parseN parseD parseS ideas user_topics).top_ideas)
    (hn1 : 1 ≤ r.scored.novelty_assessment.novelty_score)
    (hn5 : r.scored.novelty_assessment.novelty_score ≤ 5)
    (hd1 : 1 ≤ r.scored.doability_assessment.doability_score)
    (hd5 : r.scored.doability_assessment.doability_score ≤ 5)
    (ht0 : 0 ≤ r.scored.topic_match_score)
    (ht5 : r.scored.topic_match_score ≤ 5) :
    r.scored.composite_score =
      3/10 * r.scored.novelty_assessment.novelty_score +
      4/10 * r.scored.doability_assessment.doability_score +
      3/10 * r.scored.topic_match_score := by
  unfold research_ideas at hr
  simp only [List.mem_map] at hr
  obtain ⟨it, hit, hg⟩ := hr
  obtain ⟨idea0, _, hf⟩ :=
    List.mem_map.mp (mem_sortScored (mem_select_diverse_top_3 hit))
  subst hf
  rw [← hg]
  rfl

/-- Witness for C1: the single-idea pipeline with all-failing oracles yields
composite score 0.3*3 + 0.4*3 + 0.3*3 = 3. -/
theorem composite_score_formula_witness :
    w1Ranked ∈ (research_ideas w1Http w1Gen w1ParseN w1ParseD w1ParseS [w1Idea] []).top_ideas ∧
    (1 ≤ w1Ranked.scored.novelty_assessment.novelty_score ∧
     w1Ranked.scored.novelty_assessment.novelty_score ≤ 5 ∧
     1 ≤ w1Ranked.scored.doability_assessment.doability_score ∧
     w1Ranked.scored.doability_assessment.doability_score ≤ 5 ∧
     0 ≤ w1Ranked.scored.topic_match_score ∧
     w1Ranked.scored.topic_match_score ≤ 5) ∧
    w1Ranked.scored.composite_score =
      3/10 * w1Ranked.scored.novelty_assessment.novelty_score +
      4/10 * w1Ranked.scored.doability_assessment.doability_score +
      3/10 * w1Ranked.scored.topic_match_score := by
  have hmem : w1Ranked ∈
      (research_ideas w1Http w1Gen w1ParseN w1ParseD w1ParseS [w1Idea] []).top_ideas := by
    have e : (research_ideas w1Http w1Gen w1ParseN w1ParseD w1ParseS [w1Idea] []).top_ideas
        = [w1Ranked] := rfl
    rw [e]
    exact List.mem_singleton.mpr rfl
  have h3 : w1Ranked.scored.novelty_assessment.novelty_score = 3 := rfl
  have h3d : w1Ranked.scored.doability_assessment.doability_score = 3 := rfl
  have h3t : w1Ranked.scored.topic_match_score = 3 := rfl
  refine ⟨hmem, ⟨?_, ?_, ?_, ?_, ?_, ?_⟩, ?_⟩
  · rw [h3]; norm_num
  · rw [h3]; norm_num
  · rw [h3d]; norm_num
  · rw [h3d]; norm_num
  · rw [h3t]; norm_num
  · rw [h3t]; norm_num
  · exact composite_score_formula w1Http w1Gen w1ParseN w1ParseD w1ParseS [w1Idea] [] w1Ranked
      hmem (by rw [h3]; norm_num) (by rw [h3]; norm_num) (by rw [h3d]; norm_num)
      (by rw [h3d]; norm_num) (by rw [h3t]; norm_num) (by rw [h3t]; norm_num)

/-- Claim C3: on a list sorted descending by composite score,
`_select_diverse_top_3` returns the whole list when it has at most 3 elements,
and otherwise greedily accepts the top candidate and then each candidate in
score order whose title shares at most 3 whole words with every accepted
title, stopping at 3; if fewer than 3 are accepted it falls back to the
unfiltered top 3 by score — i.e. it agrees with the spec-worded selection. -/
theorem select_diverse_top_3_correct (scored : List ScoredIdea)
    (hsorted : scored.Sorted fun a b => b.composite_score ≤ a.composite_score) :
    select_diverse_top_3 scored = selectDiverseTop3Spec scored := by
  unfold select_diverse_top_3 selectDiverseTop3Spec
  by_cases hlen : scored.length ≤ 3
  · rw [if_pos hlen, if_pos hlen]
  · rw [if_neg hlen, if_neg hlen]
    cases scored with
    | nil => rfl
    | cons top rest =>
      simp only [diverseLoop_eq_greedySpec]

/-- Witness for C3: five sorted candidates where the runner-up shares five
title words with the leader. -/
theorem select_diverse_top_3_correct_witness :
    w3List.Sorted (fun a b => b.composite_score ≤ a.composite_score) ∧
    select_diverse_top_3 w3List = selectDiverseTop3Spec w3List := by
  have hs : w3List.Sorted fun a b => b.composite_score ≤ a.composite_score := by
    unfold w3List
    refine List.sorted_cons.mpr ⟨?_, List.sorted_cons.mpr ⟨?_, List.sorted_cons.mpr
      ⟨?_, List.sorted_cons.mpr ⟨?_, List.sorted_singleton _⟩⟩⟩⟩ <;>
      intro b hb <;> simp at hb <;> rcases hb with rfl | rfl | rfl | rfl <;> norm_num
  exact ⟨hs, select_diverse_top_3_correct w3List hs⟩

/-- Claim C4: the search phase rejects the invocation with a client error
(HTTP 400) and commits no state change — in particular `searcher_output` is
untouched and the job is not moved to `error` — whenever the job status is
not `ideas_ready`, or the number of selected indices differs from 3, or some
selected index lies outside `[0, number of stored candidates)`. -/
theorem search_phase_rejects_invalid
    (run : List Idea → List String → Except String SearcherOutput)
    (req : SearchReq) (a : AnalysisRec)
    (h : a.status ≠ "ideas_ready" ∨ req.selected_ideas.length ≠ 3 ∨
      ∃ i ∈ req.selected_ideas, i < 0 ∨ (numCandidates a : Int) ≤ i) :
    (analyze_paper_search run req a).code = 400 ∧
    (analyze_paper_search run req a).trace = [] := by
  obtain ⟨st, pr, tops, snap, ro, so, em⟩ := a
  unfold analyze_paper_search
  by_cases hj : req.job_id_present = false
  · rw [if_pos hj]
    exact ⟨rfl, rfl⟩
  · rw [if_neg hj]
    by_cases hc : req.selected_ideas = [] ∨ req.selected_ideas.length ≠ 3
    · rw [if_pos hc]
      exact ⟨rfl, rfl⟩
    · rw [if_neg hc]
      push_neg at hc
      by_cases hs : st ≠ "ideas_ready"
      · rw [if_pos hs]
        exact ⟨rfl, rfl⟩
      · rw [if_neg hs]
        push_neg at hs
        have hbad : ∃ i ∈ req.selected_ideas, i < 0 ∨
            (numCandidates ⟨st, pr, tops, snap, ro, so, em⟩ : Int) ≤ i := by
          rcases h with h | h | h
          · exact absurd hs h
          · exact absurd hc.2 h
          · exact h
        cases ro with
        | none => exact ⟨rfl, rfl⟩
        | some r =>
          obtain ⟨sm, cc, ri⟩ := r
          cases ri with
          | none => exact ⟨rfl, rfl⟩
          | some all_ideas =>
            have hsel : selectIdeas all_ideas req.selected_ideas = none := by
              apply selectIdeas_eq_none
              rcases hbad with ⟨i, hi, hb⟩
              refine ⟨i, hi, ?_⟩
              simp only [numCandidates, Option.bind, Option.getD] at hb
              omega
            simp [hsel]

/-- Witness for C4: invoking the search phase on a completed job. -/
theorem search_phase_rejects_invalid_witness :
    (w4State.status ≠ "ideas_ready" ∨ w4Req.selected_ideas.length ≠ 3 ∨
      ∃ i ∈ w4Req.selected_ideas, i < 0 ∨ (numCandidates w4State : Int) ≤ i) ∧
    (analyze_paper_search w4Run w4Req w4State).code = 400 ∧
    (analyze_paper_search w4Run w4Req w4State).trace = [] :=
  ⟨Or.inl (by decide),
   search_phase_rejects_invalid w4Run w4Req w4State (Or.inl (by decide))⟩

/-- Counterexample to C9 as stated: the read phase does not require the
reader output to be absent — invoked on a job that already carries reader
output (status `ideas_ready`), with a non-empty topics list and successful
collaborators, it proceeds (HTTP 200) and commits new states instead of
rejecting. -/
theorem read_phase_no_reader_output_check :
    w9State.reader_output ≠ none ∧
    (analyze_paper_read w9Oracle { topics := ["x"] } w9State).code = 200 ∧
    (analyze_paper_read w9Oracle { topics := ["x"] } w9State).trace ≠ [] := by
  refine ⟨by decide, rfl, by decide⟩

/-- Claim C9 (amended): the read phase requires that at least one topic is
supplied; invoked with an empty topics list it fails validation with a client
error (HTTP 400) before any external call is made — neither PDF extraction
nor the idea-generation agent is invoked — and commits no state change. -/
theorem read_phase_rejects_empty_topics (o : ReadOracle) (req : ReadReq)
    (a : AnalysisRec) (h : req.topics = []) :
    (analyze_paper_read o req a).code = 400 ∧
    (analyze_paper_read o req a).trace = [] ∧
    (analyze_paper_read o req a).extract_called = false ∧
    (analyze_paper_read o req a).reader_called = false := by
  unfold analyze_paper_read
  by_cases hj : req.job_id_present = false
  · rw [if_pos hj]
    exact ⟨rfl, rfl, rfl, rfl⟩
  · rw [if_neg hj, if_pos h]
    exact ⟨rfl, rfl, rfl, rfl⟩

/-- Witness for the amended C9 at a concrete job and empty topics. -/
theorem read_phase_rejects_empty_topics_witness :
    ({ topics := [] } : ReadReq).topics = [] ∧
    (analyze_paper_read w9Oracle { topics := [] } w5Start).code = 400 ∧
    (analyze_paper_read w9Oracle { topics := [] } w5Start).trace = [] ∧
    (analyze_paper_read w9Oracle { topics := [] } w5Start).extract_called = false ∧
    (analyze_paper_read w9Oracle { topics := [] } w5Start).reader_called = false :=
  ⟨rfl, read_phase_rejects_empty_topics w9Oracle { topics := [] } w5Start rfl⟩

/-- Counterexample to C5 as stated: the read phase has no status guard, so a
second read invocation on a job whose first read already reached
`ideas_ready` (progress 60) rewinds it to `parsing` (progress 20) — the
committed history of two consecutive reads on a fresh uploaded job is not
monotone. -/
theorem job_monotonicity_cex :
    jobInv w5Start = true ∧
    ¬ List.Chain' (fun s t => jobStepOK s t = true) (w5Start :: runSeq w5Start cx5Calls) := by
  refine ⟨by decide, ?_⟩
  rw [← chainOK_iff]
  decide

set_option maxHeartbeats 1000000 in
/-- One read-phase invocation from a well-formed `uploaded` job commits a
monotone history and ends in an invariant-preserving state. -/
theorem read_phase_chain (o : ReadOracle) (req : ReadReq) (a : AnalysisRec)
    (ha : a.status = "uploaded") (hp : a.progress = 10) :
    List.Chain' (fun s t => jobStepOK s t = true) (a :: (analyze_paper_read o req a).trace) ∧
    jobInv (endState a (analyze_paper_read o req a).trace) = true := by
  have hinv : jobInv a = true := by
    simp [jobInv, wellFormed, statusRank, progressOf, ha, hp]
  unfold analyze_paper_read
  repeat' split
  all_goals refine ⟨?_, ?_⟩ <;>
    simp [List.chain'_cons, List.chain'_singleton, jobStepOK, statusRank, progressOf,
      endState, jobInv, wellFormed, List.getLastD, ha, hp, hinv]

set_option maxHeartbeats 1000000 in
/-- One search-phase invocation from any invariant-satisfying job commits a
monotone history and ends in an invariant-preserving state. -/
theorem search_phase_chain
    (run : List Idea → List String → Except String SearcherOutput)
    (req : SearchReq) (a : AnalysisRec) (hinv : jobInv a = true) :
    List.Chain' (fun s t => jobStepOK s t = true) (a :: (analyze_paper_search run req a).trace) ∧
    jobInv (endState a (analyze_paper_search run req a).trace) = true := by
  unfold analyze_paper_search
  by_cases hs : a.status = "ideas_ready"
  all_goals repeat' split
  all_goals try exact ⟨List.chain'_singleton a, by simpa [endState] using hinv⟩
  all_goals
    have hp : a.progress = 60 := by
      have hwf : wellFormed a = true := by
        have h := hinv
        simp [jobInv, hs] at h
        exact h
      simpa [wellFormed, statusRank, hs, progressOf] using hwf
  all_goals refine ⟨?_, ?_⟩ <;>
    simp [List.chain'_cons, List.chain'_singleton, jobStepOK, statusRank, progressOf,
      endState, jobInv, wellFormed, List.getLastD, hs, hp]

/-- Claim C5 (amended): over every sequence of phase invocations on a single
analysis job that starts from an invariant-satisfying state and invokes the
read phase only while the job status is `uploaded`, the committed status
moves only forward along pending, uploaded, parsing, reading, ideas_ready,
searching, complete — except for the absorbing error state — and progress
never decreases. -/
theorem job_state_monotonic (a : AnalysisRec) (calls : List PhaseCall)
    (hinv : jobInv a = true) (hreads : readsFromUploaded a calls = true) :
    List.Chain' (fun s t => jobStepOK s t = true) (a :: runSeq a calls) := by
  induction calls generalizing a with
  | nil => simp [runSeq]
  | cons c cs ih =>
    rw [readsFromUploaded.eq_def, Bool.and_eq_true] at hreads
    obtain ⟨hc, hrest⟩ := hreads
    have hstep : List.Chain' (fun s t => jobStepOK s t = true)
        (a :: (runCall c a).trace) ∧ jobInv (endState a (runCall c a).trace) = true := by
      cases c with
      | readCall o req =>
        have ha : a.status = "uploaded" := of_decide_eq_true hc
        have hp : a.progress = 10 := by
          have h := hinv
          simp [jobInv, ha] at h
          simpa [wellFormed, statusRank, ha, progressOf] using h
        exact read_phase_chain o req a ha hp
      | searchCall run req => exact search_phase_chain run req a hinv
    have hih := ih (endState a (runCall c a).trace) hstep.2 hrest
    show List.Chain' (fun s t => jobStepOK s t = true)
      ((a :: (runCall c a).trace) ++ runSeq (endState a (runCall c a).trace) cs)
    rw [List.chain'_append]
    refine ⟨hstep.1, (List.chain'_cons'.mp hih).2, ?_⟩
    intro x hx y hy
    rw [cons_getLast?] at hx
    have hxe : x = endState a (runCall c a).trace := by
      simpa [endState] using (Option.mem_some_iff.mp hx).symm
    subst hxe
    exact (List.chain'_cons'.mp hih).1 y hy

/-- Witness for the amended C5: a fresh uploaded job, one successful read,
then one successful search. -/
theorem job_state_monotonic_witness :
    jobInv w5Start = true ∧
    readsFromUploaded w5Start [w5Read, w5Search] = true ∧
    List.Chain' (fun s t => jobStepOK s t = true)
      (w5Start :: runSeq w5Start [w5Read, w5Search]) :=
  ⟨by decide, by decide,
   job_state_monotonic w5Start [w5Read, w5Search] (by decide) (by decide)⟩
